import Mathlib

/-!
Verification of the Audio Artifact Tagging & Deduplication Engine of
`Suno_Downloader_Wav.py` against its natural-language specification.

The Python source is shallowly embedded: files are `List Nat` byte lists,
strings are Lean `String`s, stateful file operations are explicit state
passing over record types, and fallible operations return `Option`/`Except`.
Machine 32-bit quantities are `Nat` with explicit `% 2^32` handling where the
source packs/unpacks `"<I"` fields.
-/

namespace Suno

/-! ## Byte-level helpers (struct.pack("<I", n) and its inverse) -/

/-- `struct.pack("<I", n)`: 4 little-endian bytes of `n` (mod 2^32). -/
def le32 (n : Nat) : List Nat :=
  [n % 256, n / 256 % 256, n / 65536 % 256, n / 16777216 % 256]

/-- `struct.unpack("<I", b[0:4])[0]`: read a 4-byte little-endian value.
The source always applies this to a buffer of at least 4 bytes. -/
def decodeLe32 : List Nat → Nat
  | b0 :: b1 :: b2 :: b3 :: _ => b0 + 256 * b1 + 65536 * b2 + 16777216 * b3
  | _ => 0

/-- ASCII bytes of a literal (Python `b"..."` for ASCII text). -/
def ascii (s : String) : List Nat := s.toList.map Char.toNat

theorem le32_length (n : Nat) : (le32 n).length = 4 := rfl

theorem decodeLe32_le32 (n : Nat) (l : List Nat) (h : n < 4294967296) :
    decodeLe32 (le32 n ++ l) = n := by
  simp [le32, decodeLe32]
  omega

/-! ## RiffRewriter: `_riff_info_pack_string`, `_make_riff_info_chunk`,
`_rewrite_wav_remove_info_and_append` (source lines 1004-1104).

Field values are carried as their UTF-8 byte encodings (`List Nat`): the
source immediately encodes each string value
(`s.encode("utf-8") + b"\x00"`), and every claim about this component is
about the resulting byte layout. -/

/-- `_riff_info_pack_string`: encoded value plus one NUL terminator. -/
def riffInfoPackString (v : List Nat) : List Nat := v ++ [0]

/-- The `fields` dict handed to `_make_riff_info_chunk`
(built in `_write_riff_info_tags_for_windows`), in source key order. -/
structure InfoFields where
  title : List Nat
  album : List Nat
  track : List Nat
  genre : List Nat
  comment : List Nat
  date : List Nat

/-- One sub-chunk of the INFO list: skipped for a falsy (empty) value,
otherwise tag + little-endian size + packed data + odd-size pad byte. -/
def infoSubChunk (cid : List Nat) (v : List Nat) : List Nat :=
  if v = [] then []
  else
    let data := riffInfoPackString v
    let size := data.length
    let sub := cid ++ le32 size ++ data
    if size % 2 = 1 then sub ++ [0] else sub

/-- `_make_riff_info_chunk`: the fixed mapping title→INAM, album→IPRD,
track→ITRK, genre→IGNR, comment→ICMT, date→ICRD, in the source's dict
iteration order, wrapped in a `LIST`/`INFO` chunk padded to even length. -/
def makeRiffInfoChunk (f : InfoFields) : List Nat :=
  let subs := infoSubChunk (ascii "INAM") f.title ++ infoSubChunk (ascii "IPRD") f.album
    ++ infoSubChunk (ascii "ITRK") f.track ++ infoSubChunk (ascii "IGNR") f.genre
    ++ infoSubChunk (ascii "ICMT") f.comment ++ infoSubChunk (ascii "ICRD") f.date
  let listData := ascii "INFO" ++ subs
  let listSize := listData.length
  let chunk := ascii "LIST" ++ le32 listSize ++ listData
  if listSize % 2 = 1 then chunk ++ [0] else chunk

/-- The chunk-copy loop of `_rewrite_wav_remove_info_and_append`.
`fuel` bounds the number of iterations; the caller passes the byte length
of the whole file, which is ample since every iteration consumes at least
the 8 header bytes.  `body` is the remainder of the source file after the
12-byte RIFF header; the returned list is everything written to `dst`
between the header and the appended info chunk.
`take`/`drop` model Python `read`/`seek`: reading past end-of-file yields
the available bytes (possibly none), and `_copy_stream` stops early when
`read` returns empty. -/
def rewriteBody : Nat → List Nat → List Nat
  | 0, _ => []
  | fuel + 1, body =>
    if body.length < 8 then []
    else
      let hdr := body.take 8
      let cid := body.take 4
      let size := decodeLe32 (body.drop 4)
      let rest := body.drop 8
      if cid = ascii "LIST" ∧ 4 ≤ size then
        let listType := rest.take 4
        let rest4 := rest.drop 4
        let remaining := size - 4
        if listType = ascii "INFO" then
          let afterSkip := rest4.drop remaining
          let afterPad := if size % 2 = 1 then afterSkip.drop 1 else afterSkip
          rewriteBody fuel afterPad
        else
          let copied := rest4.take remaining
          let after := rest4.drop remaining
          let pad := if size % 2 = 1 then after.take 1 else []
          let after2 := if size % 2 = 1 then after.drop 1 else after
          hdr ++ listType ++ copied ++ pad ++ rewriteBody fuel after2
      else
        let copied := rest.take size
        let after := rest.drop size
        let pad := if size % 2 = 1 then after.take 1 else []
        let after2 := if size % 2 = 1 then after.drop 1 else after
        hdr ++ copied ++ pad ++ rewriteBody fuel after2

/-- The header validation: `len(header) == 12`, `header[0:4] == b"RIFF"`,
`header[8:12] == b"WAVE"` (`src.read(12)` returns fewer than 12 bytes
exactly when the file is shorter than 12 bytes). -/
def validRiffHeader (file : List Nat) : Bool :=
  decide (12 ≤ file.length) && decide (file.take 4 = ascii "RIFF")
    && decide ((file.drop 8).take 4 = ascii "WAVE")

/-- `_rewrite_wav_remove_info_and_append` as a function from the original
file bytes and the prebuilt info chunk to the replacement file bytes:
`none` models the raised `RuntimeError` (the temporary file is abandoned
and the original path keeps its bytes), `some out` models `os.replace`
installing `out` at the original path. -/
def rewriteWavRemoveInfoAndAppend (file : List Nat) (infoChunk : List Nat) :
    Option (List Nat) :=
  if validRiffHeader file then
    let content := file.take 12 ++ rewriteBody file.length (file.drop 12) ++ infoChunk
    let fileSize := content.length
    some (content.take 4 ++ le32 (fileSize - 8) ++ content.drop 8)
  else none

/-- The on-path effect of `_rewrite_wav_remove_info_and_append`: on the
raised error the original bytes stay in place, on success the rewritten
bytes replace them atomically. -/
def rewriteWavFileState (file : List Nat) (infoChunk : List Nat) : List Nat :=
  match rewriteWavRemoveInfoAndAppend file infoChunk with
  | none => file
  | some out => out

/-! ## Well-formed RIFF chunks (for stating C1) -/

/-- One RIFF chunk: 4-byte id plus payload. -/
structure RChunk where
  cid : List Nat
  payload : List Nat

/-- The byte serialization of a chunk: id, little-endian size, payload,
and a single pad byte when the payload size is odd. -/
def RChunk.bytes (c : RChunk) : List Nat :=
  c.cid ++ le32 c.payload.length ++ c.payload
    ++ (if c.payload.length % 2 = 1 then [0] else [])

/-- Well-formedness: a 4-byte id and a payload size representable in the
32-bit size field. -/
def RChunk.wf (c : RChunk) : Prop :=
  c.cid.length = 4 ∧ c.payload.length < 4294967296

instance (c : RChunk) : Decidable c.wf := by unfold RChunk.wf; infer_instance

/-- A `LIST` chunk whose first four payload bytes are `INFO`. -/
def RChunk.isInfoList (c : RChunk) : Bool :=
  decide (c.cid = ascii "LIST" ∧ c.payload.take 4 = ascii "INFO")

/-- Serialization of a chunk sequence. -/
def chunksBytes (cs : List RChunk) : List Nat := (cs.map RChunk.bytes).flatten

/-- One iteration of the copy loop on a well-formed chunk: a `LIST`/`INFO`
chunk is dropped entirely (with its pad byte), every other chunk is copied
byte-for-byte, and the loop resumes right after the chunk. -/
theorem rewriteBody_step (c : RChunk) (rest : List Nat) (f : Nat) (hc : c.wf) :
    rewriteBody (f + 1) (c.bytes ++ rest)
      = (if c.isInfoList then [] else c.bytes) ++ rewriteBody f rest := by
  obtain ⟨hcid, hlt⟩ := hc
  have hassoc : c.bytes ++ rest
      = c.cid ++ (le32 c.payload.length ++ ((c.payload
          ++ (if c.payload.length % 2 = 1 then [0] else [])) ++ rest)) := by
    simp [RChunk.bytes]
  have hcid8 : (c.cid ++ le32 c.payload.length).length = 8 := by
    simp [hcid, le32]
  have htake4 : (c.bytes ++ rest).take 4 = c.cid := by
    rw [hassoc]; exact List.take_left' hcid
  have hdrop4 : (c.bytes ++ rest).drop 4
      = le32 c.payload.length ++ ((c.payload
          ++ (if c.payload.length % 2 = 1 then [0] else [])) ++ rest) := by
    rw [hassoc]; exact List.drop_left' hcid
  have htake8 : (c.bytes ++ rest).take 8 = c.cid ++ le32 c.payload.length := by
    rw [hassoc, ← List.append_assoc]
    exact List.take_left' hcid8
  have hdrop8 : (c.bytes ++ rest).drop 8
      = c.payload ++ ((if c.payload.length % 2 = 1 then [0] else []) ++ rest) := by
    rw [hassoc, ← List.append_assoc, List.drop_left' hcid8, List.append_assoc]
  have hdec : ∀ l, decodeLe32 (le32 c.payload.length ++ l) = c.payload.length :=
    fun l => decodeLe32_le32 _ l hlt
  have hpadlen : (if c.payload.length % 2 = 1 then ([0] : List Nat) else []).length ≤ 1 := by
    split <;> simp
  have hlen : ¬ (c.bytes ++ rest).length < 8 := by
    rw [hassoc]
    simp [hcid, le32]
    omega
  rw [rewriteBody, if_neg hlen]
  simp only [htake4, htake8, hdrop4, hdrop8, hdec]
  by_cases hlist : c.cid = ascii "LIST" ∧ 4 ≤ c.payload.length
  · rw [if_pos hlist]
    have h4 : 4 ≤ c.payload.length := hlist.2
    have htakeT : (c.payload ++ ((if c.payload.length % 2 = 1 then ([0] : List Nat) else []) ++ rest)).take 4
        = c.payload.take 4 := List.take_append_of_le_length h4
    have hdropT : (c.payload ++ ((if c.payload.length % 2 = 1 then ([0] : List Nat) else []) ++ rest)).drop 4
        = c.payload.drop 4 ++ ((if c.payload.length % 2 = 1 then [0] else []) ++ rest) :=
      List.drop_append_of_le_length h4
    have hdlen : (c.payload.drop 4).length = c.payload.length - 4 := by simp
    have htakeR : (c.payload.drop 4 ++ ((if c.payload.length % 2 = 1 then ([0] : List Nat) else []) ++ rest)).take (c.payload.length - 4)
        = c.payload.drop 4 := List.take_left' hdlen
    have hdropR : (c.payload.drop 4 ++ ((if c.payload.length % 2 = 1 then ([0] : List Nat) else []) ++ rest)).drop (c.payload.length - 4)
        = (if c.payload.length % 2 = 1 then [0] else []) ++ rest := List.drop_left' hdlen
    simp only [htakeT, hdropT, htakeR, hdropR]
    by_cases hinfo : c.payload.take 4 = ascii "INFO"
    · rw [if_pos hinfo]
      have hinfoList : c.isInfoList = true := by
        simp [RChunk.isInfoList, hlist.1, hinfo]
      rw [hinfoList]
      by_cases hodd : c.payload.length % 2 = 1
      · simp [hodd]
      · simp [hodd]
    · rw [if_neg hinfo]
      have hinfoList : c.isInfoList = false := by
        simp [RChunk.isInfoList, hinfo]
      rw [hinfoList]
      by_cases hodd : c.payload.length % 2 = 1
      · simp only [hodd, if_true, if_pos]
        simp [RChunk.bytes, hodd, List.take_append_drop]
      · simp only [hodd, if_false, if_neg]
        simp [RChunk.bytes, hodd, List.take_append_drop]
  · rw [if_neg hlist]
    have hinfoList : c.isInfoList = false := by
      by_cases h4 : 4 ≤ c.payload.length
      · have hcidne : ¬ c.cid = ascii "LIST" := fun h => hlist ⟨h, h4⟩
        simp [RChunk.isInfoList, hcidne]
      · have : (c.payload.take 4).length < 4 := by
          simp
          omega
        have : ¬ c.payload.take 4 = ascii "INFO" := by
          intro h
          rw [h] at this
          simp [ascii] at this
        simp [RChunk.isInfoList, this]
    rw [hinfoList]
    have htakeP : (c.payload ++ ((if c.payload.length % 2 = 1 then ([0] : List Nat) else []) ++ rest)).take c.payload.length
        = c.payload := List.take_left' rfl
    have hdropP : (c.payload ++ ((if c.payload.length % 2 = 1 then ([0] : List Nat) else []) ++ rest)).drop c.payload.length
        = (if c.payload.length % 2 = 1 then [0] else []) ++ rest := List.drop_left' rfl
    simp only [htakeP, hdropP]
    by_cases hodd : c.payload.length % 2 = 1
    · simp [RChunk.bytes, hodd]
    · simp [RChunk.bytes, hodd]

/-- The copy loop on a serialized well-formed chunk sequence keeps exactly
the non-`LIST`/`INFO` chunks, byte-for-byte and in order, provided the fuel
is at least the byte length (every iteration consumes at least 8 bytes). -/
theorem rewriteBody_chunks (cs : List RChunk) :
    ∀ fuel, (∀ c ∈ cs, c.wf) → (chunksBytes cs).length ≤ fuel →
    rewriteBody fuel (chunksBytes cs)
      = chunksBytes (cs.filter (fun c => !c.isInfoList)) := by
  induction cs with
  | nil =>
    intro fuel _ _
    cases fuel <;> simp [chunksBytes, rewriteBody]
  | cons c cs ih =>
    intro fuel hwf hfuel
    have hc : c.wf := hwf c (by simp)
    have hcs : ∀ c' ∈ cs, c'.wf := fun c' h => hwf c' (by simp [h])
    have hblen : 8 ≤ c.bytes.length := by
      obtain ⟨h1, _⟩ := hc
      simp [RChunk.bytes, h1, le32]
      omega
    have hbytes : chunksBytes (c :: cs) = c.bytes ++ chunksBytes cs := by
      simp [chunksBytes]
    rw [hbytes] at hfuel ⊢
    rw [List.length_append] at hfuel
    cases fuel with
    | zero => omega
    | succ f =>
      rw [rewriteBody_step c _ f hc]
      rw [ih f hcs (by omega)]
      cases hinfo : c.isInfoList <;>
        simp [List.filter_cons, hinfo, chunksBytes]

/-! ## The claim's description of the appended INFO chunk (refinement side) -/

/-- The spec's description of one field entry of the new INFO chunk: a fixed
four-character tag, a 4-byte little-endian length, the encoded value with one
trailing NUL terminator, and one extra zero pad byte when that length is odd;
an empty field is omitted.  Stated for comparison with `infoSubChunk`, which
is translated from the source. -/
def riffFieldEntry (tag : List Nat) (v : List Nat) : List Nat :=
  if v = [] then []
  else tag ++ le32 (v.length + 1) ++ (v ++ [0])
    ++ (if (v.length + 1) % 2 = 1 then [0] else [])

/-- The spec's description of the whole appended chunk: an outer `LIST` chunk
whose payload begins with `INFO`, followed by the field entries in the fixed
tag order INAM, IPRD, ITRK, IGNR, ICMT, ICRD, the outer chunk padded to even
length. -/
def riffInfoChunkSpec (f : InfoFields) : List Nat :=
  let entries := riffFieldEntry (ascii "INAM") f.title ++ riffFieldEntry (ascii "IPRD") f.album
    ++ riffFieldEntry (ascii "ITRK") f.track ++ riffFieldEntry (ascii "IGNR") f.genre
    ++ riffFieldEntry (ascii "ICMT") f.comment ++ riffFieldEntry (ascii "ICRD") f.date
  let payload := ascii "INFO" ++ entries
  ascii "LIST" ++ le32 payload.length ++ payload
    ++ (if payload.length % 2 = 1 then [0] else [])

theorem infoSubChunk_eq_fieldEntry (tag v : List Nat) :
    infoSubChunk tag v = riffFieldEntry tag v := by
  unfold infoSubChunk riffFieldEntry riffInfoPackString
  by_cases h : v = []
  · simp [h]
  · by_cases h2 : (v.length + 1) % 2 = 1 <;> simp [h, h2]

theorem makeRiffInfoChunk_eq_spec (f : InfoFields) :
    makeRiffInfoChunk f = riffInfoChunkSpec f := by
  unfold makeRiffInfoChunk riffInfoChunkSpec
  simp only [infoSubChunk_eq_fieldEntry]
  split <;> rename_i h <;> simp [h, List.append_assoc]

/-- Shared core of C1: on a file made of a valid 12-byte header followed by a
well-formed chunk stream, the rewrite keeps exactly the non-`LIST`/`INFO`
chunks byte-for-byte in order, appends `info` last, and overwrites the 4-byte
size field with (final length - 8). -/
theorem rewriteWav_wellformed (sz0 : List Nat) (hsz : sz0.length = 4)
    (cs : List RChunk) (hwf : ∀ c ∈ cs, c.wf) (info : List Nat) :
    rewriteWavRemoveInfoAndAppend
        (ascii "RIFF" ++ sz0 ++ (ascii "WAVE" ++ chunksBytes cs)) info
      = some (ascii "RIFF"
          ++ le32 ((chunksBytes (cs.filter (fun c => !c.isInfoList))).length
              + info.length + 4)
          ++ (ascii "WAVE" ++ chunksBytes (cs.filter (fun c => !c.isInfoList)) ++ info)) := by
  set file := ascii "RIFF" ++ sz0 ++ (ascii "WAVE" ++ chunksBytes cs) with hfile
  set kept := chunksBytes (cs.filter (fun c => !c.isInfoList)) with hkept
  have hsz8 : (ascii "RIFF" ++ sz0).length = 8 := by simp [ascii, hsz]
  have hsz12 : (ascii "RIFF" ++ sz0 ++ ascii "WAVE").length = 12 := by simp [ascii, hsz]
  have hfile2 : file = (ascii "RIFF" ++ sz0) ++ (ascii "WAVE" ++ chunksBytes cs) := by
    rw [hfile, List.append_assoc]
  have hfile3 : file = (ascii "RIFF" ++ sz0 ++ ascii "WAVE") ++ chunksBytes cs := by
    rw [hfile]
    simp [List.append_assoc]
  have htake4 : file.take 4 = ascii "RIFF" := by
    rw [hfile, List.append_assoc]
    exact List.take_left' (by simp [ascii])
  have hdrop8 : file.drop 8 = ascii "WAVE" ++ chunksBytes cs := by
    rw [hfile2]
    exact List.drop_left' hsz8
  have hdrop8take : (file.drop 8).take 4 = ascii "WAVE" := by
    rw [hdrop8]
    exact List.take_left' (by simp [ascii])
  have hflen : file.length = 12 + (chunksBytes cs).length := by
    rw [hfile3, List.length_append, hsz12]
  have hvalid : validRiffHeader file = true := by
    simp [validRiffHeader, htake4, hdrop8take, hflen]
  have htake12 : file.take 12 = ascii "RIFF" ++ sz0 ++ ascii "WAVE" := by
    rw [hfile3]
    exact List.take_left' hsz12
  have hdrop12 : file.drop 12 = chunksBytes cs := by
    rw [hfile3]
    exact List.drop_left' hsz12
  have hbody : rewriteBody file.length (file.drop 12) = kept := by
    rw [hdrop12, hkept]
    exact rewriteBody_chunks cs file.length hwf (by omega)
  rw [rewriteWavRemoveInfoAndAppend]
  rw [if_pos hvalid]
  rw [hbody, htake12]
  have hcontent : ascii "RIFF" ++ sz0 ++ ascii "WAVE" ++ (kept ++ info)
      = (ascii "RIFF" ++ sz0) ++ (ascii "WAVE" ++ (kept ++ info)) := by
    simp [List.append_assoc]
  have hctake4 : (ascii "RIFF" ++ sz0 ++ ascii "WAVE" ++ (kept ++ info)).take 4
      = ascii "RIFF" := by
    simp only [List.append_assoc]
    exact List.take_left' (by simp [ascii])
  have hcdrop8 : (ascii "RIFF" ++ sz0 ++ ascii "WAVE" ++ (kept ++ info)).drop 8
      = ascii "WAVE" ++ (kept ++ info) := by
    rw [hcontent]
    exact List.drop_left' hsz8
  have hclen : (ascii "RIFF" ++ sz0 ++ ascii "WAVE" ++ (kept ++ info)).length
      = 12 + (kept.length + info.length) := by
    simp [ascii, hsz]
    omega
  simp only [List.append_assoc] at hctake4 hcdrop8 hclen ⊢
  rw [hctake4, hcdrop8, hclen]
  have : 12 + (kept.length + info.length) - 8 = kept.length + info.length + 4 := by omega
  rw [this]

/-- Claim C1: for every WAV file beginning with a valid 12-byte RIFF/WAVE
header followed by a well-formed chunk stream, the rewrite produces the
original header with its 4-byte little-endian size field overwritten to
(final output length - 8); every chunk that is not a `LIST` chunk with first
four payload bytes `INFO` is copied byte-for-byte in its original order
including its odd-size pad byte; every `LIST`/`INFO` chunk is dropped with
its pad byte; and exactly one new `LIST` chunk is appended last whose layout
is: payload beginning with `INFO`, then for each non-empty field among
{title, album, track, genre, comment, date} the fixed tag (INAM, IPRD, ITRK,
IGNR, ICMT, ICRD), a 4-byte little-endian length, the encoded value with one
trailing NUL, an extra zero pad byte when that length is odd, the outer
chunk padded to even length. -/
theorem c1_riff_rewrite (sz0 : List Nat) (hsz : sz0.length = 4)
    (cs : List RChunk) (hwf : ∀ c ∈ cs, c.wf) (fds : InfoFields) :
    rewriteWavRemoveInfoAndAppend
        (ascii "RIFF" ++ sz0 ++ (ascii "WAVE" ++ chunksBytes cs))
        (makeRiffInfoChunk fds)
      = some (ascii "RIFF"
          ++ le32 ((chunksBytes (cs.filter (fun c => !c.isInfoList))).length
              + (makeRiffInfoChunk fds).length + 4)
          ++ (ascii "WAVE" ++ chunksBytes (cs.filter (fun c => !c.isInfoList))
              ++ makeRiffInfoChunk fds))
    ∧ (ascii "RIFF"
          ++ le32 ((chunksBytes (cs.filter (fun c => !c.isInfoList))).length
              + (makeRiffInfoChunk fds).length + 4)
          ++ (ascii "WAVE" ++ chunksBytes (cs.filter (fun c => !c.isInfoList))
              ++ makeRiffInfoChunk fds)).length
        = ((chunksBytes (cs.filter (fun c => !c.isInfoList))).length
              + (makeRiffInfoChunk fds).length + 4) + 8
    ∧ makeRiffInfoChunk fds = riffInfoChunkSpec fds := by
  refine ⟨rewriteWav_wellformed sz0 hsz cs hwf _, ?_, makeRiffInfoChunk_eq_spec fds⟩
  simp [ascii, le32]

/-- Claim C1 witness: a minimal WAV with a format chunk (odd size, padded),
an old `LIST`/`INFO` chunk, and a data chunk, rewritten with a
title-only field set. -/
theorem c1_riff_rewrite_witness :
    ([1, 2, 3, 4] : List Nat).length = 4
    ∧ (∀ c ∈ [RChunk.mk (ascii "fmt ") [16, 0, 0],
        RChunk.mk (ascii "LIST") (ascii "INFO" ++ [5, 6, 7]),
        RChunk.mk (ascii "data") [7, 8]], c.wf)
    ∧ (rewriteWavRemoveInfoAndAppend
          (ascii "RIFF" ++ [1, 2, 3, 4] ++ (ascii "WAVE"
            ++ chunksBytes [RChunk.mk (ascii "fmt ") [16, 0, 0],
              RChunk.mk (ascii "LIST") (ascii "INFO" ++ [5, 6, 7]),
              RChunk.mk (ascii "data") [7, 8]]))
          (makeRiffInfoChunk (InfoFields.mk (ascii "New") [] [] [] [] []))
        = some (ascii "RIFF"
            ++ le32 ((chunksBytes (([RChunk.mk (ascii "fmt ") [16, 0, 0],
                RChunk.mk (ascii "LIST") (ascii "INFO" ++ [5, 6, 7]),
                RChunk.mk (ascii "data") [7, 8]].filter (fun c => !c.isInfoList)))).length
                + (makeRiffInfoChunk (InfoFields.mk (ascii "New") [] [] [] [] [])).length + 4)
            ++ (ascii "WAVE"
              ++ chunksBytes (([RChunk.mk (ascii "fmt ") [16, 0, 0],
                RChunk.mk (ascii "LIST") (ascii "INFO" ++ [5, 6, 7]),
                RChunk.mk (ascii "data") [7, 8]].filter (fun c => !c.isInfoList)))
              ++ makeRiffInfoChunk (InfoFields.mk (ascii "New") [] [] [] [] [])))) :=
  ⟨rfl, by decide,
    (c1_riff_rewrite [1, 2, 3, 4] rfl _ (by decide)
      (InfoFields.mk (ascii "New") [] [] [] [] [])).1⟩

/-- Claim C2 (amended): the rewrite raises exactly for inputs that do not
begin with the valid 12-byte RIFF/WAVE magic header; on that failure the
original file's bytes are left untouched, and on success the original is
replaced by the rewritten bytes.  A truncated trailing chunk header does
not raise (see the counterexample). -/
theorem c2_failure_behavior (file info : List Nat) :
    (rewriteWavRemoveInfoAndAppend file info = none ↔ validRiffHeader file = false)
    ∧ (validRiffHeader file = false → rewriteWavFileState file info = file)
    ∧ (∀ out, rewriteWavRemoveInfoAndAppend file info = some out →
        rewriteWavFileState file info = out) := by
  refine ⟨?_, ?_, ?_⟩
  · cases h : validRiffHeader file <;> simp [rewriteWavRemoveInfoAndAppend, h]
  · intro h
    simp [rewriteWavFileState, rewriteWavRemoveInfoAndAppend, h]
  · intro out h
    simp [rewriteWavFileState, h]

/-- Claim C2 counterexample: a file with a valid 12-byte header followed by
a single stray byte — a truncated chunk header — does not make the rewrite
fail: the loop breaks silently and the rewrite succeeds (dropping the
stray byte), contradicting the claim that every truncated chunk header
raises. -/
theorem c2_counterexample :
    validRiffHeader (ascii "RIFF" ++ [0, 0, 0, 0] ++ (ascii "WAVE" ++ [65])) = true
    ∧ (rewriteWavRemoveInfoAndAppend (ascii "RIFF" ++ [0, 0, 0, 0] ++ (ascii "WAVE" ++ [65]))
        (makeRiffInfoChunk (InfoFields.mk [] [] [] [] [] []))).isSome = true := by
  constructor
  · decide
  · decide

/-- Claim C2 witness: a file with bad magic is rejected and its bytes are
left in place. -/
theorem c2_witness :
    validRiffHeader (ascii "JUNK") = false
    ∧ rewriteWavFileState (ascii "JUNK") [] = ascii "JUNK" :=
  ⟨by decide, (c2_failure_behavior (ascii "JUNK") []).2.1 (by decide)⟩

/-! ## String helpers: Python `str.strip()`, `str.lower()`, and `sanitize`
(source line 742).  `strip`/`lower` and the regex character classes are
modelled over their ASCII behavior, which covers every character the source
manipulates. -/

/-- Python ASCII whitespace (the characters `str.strip()` removes). -/
def pySpace (c : Char) : Bool :=
  c = ' ' ∨ c = '\t' ∨ c = '\n' ∨ c = '\r' ∨ c = '\x0b' ∨ c = '\x0c'

/-- `str.strip()`: remove leading and trailing whitespace. -/
def pyStrip (s : String) : String :=
  (((s.toList.dropWhile pySpace).reverse.dropWhile pySpace).reverse).asString

/-- `str.lower()` (ASCII range). -/
def pyLower (s : String) : String := (s.toList.map Char.toLower).asString

/-- `sanitize`: `re.sub(r'[\\/:*?"<>|]', "", name or "")` — delete the
characters illegal in Windows file names. -/
def sanitize (s : String) : String :=
  (s.toList.filter (fun c =>
    !(c = '\\' ∨ c = '/' ∨ c = ':' ∨ c = '*' ∨ c = '?' ∨ c = '"'
      ∨ c = '<' ∨ c = '>' ∨ c = '|'))).asString

/-! ## FileBaseAllocator (`download_worker`, source lines 2377-2388).

`existing_by_id` (the IdentityIndex) is modelled as an association list from
clip id to the stored base stem ("" standing for a falsy/absent base), and
`versions` (the VersionSeed counters) as an association list from raw title
to counter value, with Python's `dict.get(k, 0)` defaulting behavior. -/

/-- A clip as the allocator sees it: `clip.get("id")` and `clip.get("title")`. -/
structure Clip where
  id : String
  title : String

/-- `versions.get(raw, 0)`. -/
def lookupD (l : List (String × Nat)) (k : String) (d : Nat) : Nat :=
  (l.lookup k).getD d

/-- Python dict assignment `d[k] = v` on an association list. -/
def updateAssoc {β : Type} : List (String × β) → String → β → List (String × β)
  | [], k, v => [(k, v)]
  | (k', v') :: rest, k, v =>
    if k' = k then (k, v) :: rest else (k', v') :: updateAssoc rest k v

/-- `clip_id = str(clip.get("id") or "").strip()`. -/
def clipIdOf (clip : Clip) : String := pyStrip clip.id

/-- The condition `clip_id and clip_id in existing_by_id and
existing_by_id[clip_id].get("base")`: the stored base, when the id is
non-empty, present, and its base truthy. -/
def knownBase (index : List (String × String)) (clipId : String) : Option String :=
  if clipId = "" then none
  else match index.lookup clipId with
    | some b => if b = "" then none else some b
    | none => none

/-- The raw title fallback chain:
`raw = sanitize(str(clip.get("title",""))).strip()`;
`if not raw: raw = sanitize(clip_id or "Untitled").strip() or "Untitled"`. -/
def rawOf (clip : Clip) : String :=
  let clipId := clipIdOf clip
  let raw := pyStrip (sanitize clip.title)
  if raw = "" then
    let r := pyStrip (sanitize (if clipId = "" then "Untitled" else clipId))
    if r = "" then "Untitled" else r
  else raw

/-- The allocation step of `download_worker`: returns the base filename and
the updated version counters. -/
def allocate (index : List (String × String)) (versions : List (String × Nat))
    (clip : Clip) : String × List (String × Nat) :=
  match knownBase index (clipIdOf clip) with
  | some b => (b, versions)
  | none =>
    let raw := rawOf clip
    let cnt := lookupD versions raw 0 + 1
    (raw ++ " V" ++ toString cnt, updateAssoc versions raw cnt)

theorem lookup_updateAssoc_self {β : Type} (l : List (String × β)) (k : String) (v : β) :
    (updateAssoc l k v).lookup k = some v := by
  induction l with
  | nil => simp [updateAssoc, List.lookup]
  | cons p rest ih =>
    obtain ⟨k', v'⟩ := p
    by_cases h : k' = k
    · simp [updateAssoc, h, List.lookup]
    · have hne : (k == k') = false := by
        simp [beq_iff_eq]
        exact fun he => h he.symm
      simp [updateAssoc, h, List.lookup, hne, ih]

theorem lookup_updateAssoc_ne {β : Type} (l : List (String × β)) (k k' : String) (v : β)
    (h : k' ≠ k) : (updateAssoc l k v).lookup k' = l.lookup k' := by
  induction l with
  | nil =>
    have hne : (k' == k) = false := by simp [beq_iff_eq, h]
    simp [updateAssoc, List.lookup, hne]
  | cons p rest ih =>
    obtain ⟨k0, v0⟩ := p
    by_cases h0 : k0 = k
    · subst h0
      have hne : (k' == k0) = false := by simp [beq_iff_eq, h]
      simp [updateAssoc, List.lookup, hne]
    · simp only [updateAssoc, if_neg h0]
      by_cases h1 : k' = k0
      · subst h1
        simp [List.lookup]
      · have hne : (k' == k0) = false := by simp [beq_iff_eq, h1]
        simp [List.lookup, hne, ih]

/-- Claim C3: for a clip whose (stripped) identifier is empty or absent from
the IdentityIndex, allocation returns `"<raw> V<n>"` where `raw` is the
sanitized title, falling back to the sanitized identifier, then to the
literal `"Untitled"` (the chain embodied in `rawOf`), and `n` is the
post-increment value of the per-raw counter seeded from the scanner's
observed maximum (0 if none); consequently a second such clip with the same
raw title receives the next, strictly larger suffix in call order. -/
theorem c3_allocate_new (index : List (String × String))
    (versions : List (String × Nat)) (clip : Clip)
    (h : clipIdOf clip = "" ∨ index.lookup (clipIdOf clip) = none) :
    (allocate index versions clip).1
      = rawOf clip ++ " V" ++ toString (lookupD versions (rawOf clip) 0 + 1)
    ∧ lookupD (allocate index versions clip).2 (rawOf clip) 0
      = lookupD versions (rawOf clip) 0 + 1
    ∧ (∀ clip2 : Clip,
        (clipIdOf clip2 = "" ∨ index.lookup (clipIdOf clip2) = none) →
        rawOf clip2 = rawOf clip →
        (allocate index (allocate index versions clip).2 clip2).1
          = rawOf clip ++ " V" ++ toString (lookupD versions (rawOf clip) 0 + 2)) := by
  have hkb : ∀ c : Clip,
      (clipIdOf c = "" ∨ index.lookup (clipIdOf c) = none) →
      knownBase index (clipIdOf c) = none := by
    intro c hc
    unfold knownBase
    rcases hc with hc | hc
    · rw [if_pos hc]
    · by_cases h0 : clipIdOf c = ""
      · rw [if_pos h0]
      · rw [if_neg h0, hc]
  refine ⟨by simp [allocate, hkb clip h], ?_, ?_⟩
  · simp [allocate, hkb clip h, lookupD, lookup_updateAssoc_self]
  · intro clip2 h2 hraw
    have hstep : lookupD versions (rawOf clip) 0 + 1 + 1
        = lookupD versions (rawOf clip) 0 + 2 := by omega
    simp [allocate, hkb clip h, hkb clip2 h2, hraw, lookupD,
      lookup_updateAssoc_self, hstep]

/-- Claim C3 witness: with a seed recording an on-disk `"Sunrise V1"`, a new
`"Sunrise"` clip (identifier absent from the index) allocates to
`"Sunrise V2"`. -/
theorem c3_allocate_new_witness :
    (clipIdOf (Clip.mk "aaa-1" "Sunrise") = ""
      ∨ ([] : List (String × String)).lookup (clipIdOf (Clip.mk "aaa-1" "Sunrise")) = none)
    ∧ (allocate [] [("Sunrise", 1)] (Clip.mk "aaa-1" "Sunrise")).1 = "Sunrise V2" :=
  ⟨Or.inr rfl,
    ((c3_allocate_new [] [("Sunrise", 1)] (Clip.mk "aaa-1" "Sunrise") (Or.inr rfl)).1).trans
      (by decide)⟩

/-- Claim C4: for a clip whose identifier is non-empty and present in the
IdentityIndex with a known (truthy) base, allocation returns that base
unchanged and leaves every version counter unchanged; calling it twice
returns the same base both times. -/
theorem c4_allocate_stable (index : List (String × String))
    (versions : List (String × Nat)) (clip : Clip) (b : String)
    (hid : clipIdOf clip ≠ "") (hb : index.lookup (clipIdOf clip) = some b)
    (hbne : b ≠ "") :
    (allocate index versions clip).1 = b
    ∧ (allocate index versions clip).2 = versions
    ∧ allocate index (allocate index versions clip).2 clip = (b, versions) := by
  have hkb : knownBase index (clipIdOf clip) = some b := by
    unfold knownBase
    rw [if_neg hid, hb]
    simp [hbne]
  refine ⟨?_, ?_, ?_⟩ <;> simp [allocate, hkb]

/-- Claim C4 witness: an indexed clip keeps its stored base
`"Sunrise V1"` across two allocations and the counters are untouched. -/
theorem c4_allocate_stable_witness :
    clipIdOf (Clip.mk "u-1" "Whatever") ≠ ""
    ∧ [("u-1", "Sunrise V1")].lookup (clipIdOf (Clip.mk "u-1" "Whatever")) = some "Sunrise V1"
    ∧ "Sunrise V1" ≠ ""
    ∧ ((allocate [("u-1", "Sunrise V1")] [("Sunrise", 1)] (Clip.mk "u-1" "Whatever")).1
        = "Sunrise V1"
      ∧ (allocate [("u-1", "Sunrise V1")] [("Sunrise", 1)] (Clip.mk "u-1" "Whatever")).2
        = [("Sunrise", 1)]
      ∧ allocate [("u-1", "Sunrise V1")]
          (allocate [("u-1", "Sunrise V1")] [("Sunrise", 1)] (Clip.mk "u-1" "Whatever")).2
          (Clip.mk "u-1" "Whatever") = ("Sunrise V1", [("Sunrise", 1)])) :=
  ⟨by decide, by decide, by decide,
    c4_allocate_stable [("u-1", "Sunrise V1")] [("Sunrise", 1)]
      (Clip.mk "u-1" "Whatever") "Sunrise V1" (by decide) (by decide) (by decide)⟩

/-! ## TagComposer: the ID3 tag model.

Frames are modelled by the fields the source reads and writes.  `USLT` and
`COMM` are written with a single fixed desc/lang, so one optional slot each
suffices; `WXXX`/`TXXX`/`APIC` are keyed by their description in mutagen, so
they are lists, and `add` replaces the frame with the same description or
appends.  `TCOM` (the legacy read-only composer fallback) is a list of text
frames, each a list of strings. -/

structure WxxxFrame where
  desc : String
  url : String
deriving DecidableEq

structure TxxxFrame where
  desc : String
  text : List String
deriving DecidableEq

structure ApicFrame where
  mime : String
  picType : Nat
  desc : String
  data : List Nat
deriving DecidableEq

structure ID3State where
  tit2 : Option String := none
  talb : Option String := none
  trck : Option String := none
  tcon : Option String := none
  uslt : Option String := none
  tcop : Option String := none
  comm : Option String := none
  wxxx : List WxxxFrame := []
  txxx : List TxxxFrame := []
  tcom : List (List String) := []
  apic : List ApicFrame := []
deriving DecidableEq

/-- mutagen `ID3.add` for a `WXXX` frame: replaces the frame with the same
description, otherwise appends. -/
def addWxxx (l : List WxxxFrame) (fr : WxxxFrame) : List WxxxFrame :=
  if l.any (fun f => f.desc == fr.desc) then
    l.map (fun f => if f.desc == fr.desc then fr else f)
  else l ++ [fr]

/-- mutagen `ID3.add` for a `TXXX` frame. -/
def addTxxx (l : List TxxxFrame) (fr : TxxxFrame) : List TxxxFrame :=
  if l.any (fun f => f.desc == fr.desc) then
    l.map (fun f => if f.desc == fr.desc then fr else f)
  else l ++ [fr]

/-- mutagen `ID3.add` for an `APIC` frame. -/
def addApic (l : List ApicFrame) (fr : ApicFrame) : List ApicFrame :=
  if l.any (fun f => f.desc == fr.desc) then
    l.map (fun f => if f.desc == fr.desc then fr else f)
  else l ++ [fr]

/-- The clip dict fields consumed by `_populate_id3_common` and
`_write_riff_info_tags_for_windows`.  `weight`/`creativity` carry the
rendered slider value (the part interpolated into the f-string). -/
structure ClipRec where
  id : String := ""
  title : String := ""
  playlist : String := ""
  relIdx : String := ""
  tags : String := ""
  lyrics : String := ""
  prompt : String := ""
  created : String := ""
  gpt : String := ""
  weight : Option String := none
  creativity : Option String := none

/-- The comment text: `" | ".join(filter(None, [gpt, ", ".join(parts)]))`
where `parts` holds `"Weight: w"` and `"Creativity: c"` when present. -/
def commentTextOf (clip : ClipRec) : String :=
  let parts := (match clip.weight with
      | some w => ["Weight: " ++ w]
      | none => [])
    ++ (match clip.creativity with
      | some cr => ["Creativity: " ++ cr]
      | none => [])
  String.intercalate " | "
    (([clip.gpt, String.intercalate ", " parts]).filter (fun s => s != ""))

/-- `os.path.splitext(p)[1]`: the extension of the last path component,
empty when the only dots lead the component (CPython `genericpath._splitext`
with both `\` and `/` as separators, as on Windows where this tool runs). -/
def splitextExt (p : String) : String :=
  let revBase := p.toList.reverse.takeWhile (fun c => c != '/' && c != '\\')
  let afterDot := revBase.takeWhile (fun c => c != '.')
  if afterDot.length = revBase.length then ""
  else
    let beforeDot := revBase.drop (afterDot.length + 1)
    if beforeDot.all (fun c => c == '.') then ""
    else ('.' :: afterDot.reverse).asString

/-- The cover MIME choice of `_populate_id3_common`:
`"image/jpeg" if ext in (".jpg", ".jpeg") else "image/png"`. -/
def mimeForPath (p : String) : String :=
  let ext := pyLower (splitextExt p)
  if ext = ".jpg" ∨ ext = ".jpeg" then "image/jpeg" else "image/png"

/-- `_populate_id3_common`: the source first deletes every existing frame,
so the resulting tag state depends only on the clip and the cover argument.
`img = some (path, data)` models `img_path` naming an existing file with
contents `data`; `none` models a falsy path or a missing file.
The `TCOP` slot carries `format_created(created)`; the strftime formatting
itself lies outside every claim, so the raw `created` value is recorded. -/
def populateId3Common (clip : ClipRec) (img : Option (String × List Nat)) : ID3State :=
  let s1 : ID3State :=
    { tit2 := some clip.title, talb := some clip.playlist, trck := some clip.relIdx }
  let s2 := if clip.tags ≠ "" then { s1 with tcon := some clip.tags } else s1
  let lyricsText := if clip.lyrics ≠ "" then clip.lyrics else clip.prompt
  let s3 := if lyricsText ≠ "" then { s2 with uslt := some lyricsText } else s2
  let s4 := if clip.created ≠ "" then { s3 with tcop := some clip.created } else s3
  let s5 := if commentTextOf clip ≠ "" then { s4 with comm := some (commentTextOf clip) } else s4
  let clipId := pyStrip clip.id
  let s6 := if clipId ≠ "" then
      { s5 with wxxx := addWxxx s5.wxxx (WxxxFrame.mk "ID" clipId),
                txxx := addTxxx s5.txxx (TxxxFrame.mk "ID" [clipId]) }
    else s5
  match img with
  | some pd =>
    if pd.1 ≠ "" then
      { s6 with apic := addApic s6.apic (ApicFrame.mk (mimeForPath pd.1) 3 "Cover" pd.2) }
    else s6
  | none => s6

/-- `str(fr.desc).strip().lower() == "id"`. -/
def isIdDesc (d : String) : Bool := pyLower (pyStrip d) == "id"

/-- `_get_id_wxxx_frame`. -/
def getIdWxxx (s : ID3State) : Option WxxxFrame :=
  s.wxxx.find? (fun fr => isIdDesc fr.desc)

/-- `_get_id_txxx_frame`. -/
def getIdTxxx (s : ID3State) : Option TxxxFrame :=
  s.txxx.find? (fun fr => isIdDesc fr.desc)

/-- The frame mutation of `retag_mp3_fill_missing_preserve_timestamps`:
add a `WXXX`/`TXXX` "ID" frame for each slot not already present; `changed`
is whether anything was added. -/
def retagFillMissingFrames (s : ID3State) (clipId : String) : Bool × ID3State :=
  let w := getIdWxxx s
  let t := getIdTxxx s
  let s1 := if w.isNone then
      { s with wxxx := addWxxx s.wxxx (WxxxFrame.mk "ID" clipId) }
    else s
  let s2 := if t.isNone then
      { s1 with txxx := addTxxx s1.txxx (TxxxFrame.mk "ID" [clipId]) }
    else s1
  (w.isNone || t.isNone, s2)

/-! ## UUID_RE and identifier extraction (`mp3_extract_clip_id`,
`flac_extract_clip_id`, source lines 151-154 and 1283-1352). -/

/-- `[0-9a-f]` with `re.IGNORECASE`. -/
def isHexDigit (c : Char) : Bool :=
  c.isDigit || ('a' ≤ c && c ≤ 'f') || ('A' ≤ c && c ≤ 'F')

/-- A 36-character 8-4-4-4-12 hex-group shape at the head of `cs`. -/
def isUuidChars (cs : List Char) : Bool :=
  cs.length == 36 &&
    (List.range 36).all (fun i =>
      if i = 8 ∨ i = 13 ∨ i = 18 ∨ i = 23 then cs.getD i ' ' == '-'
      else isHexDigit (cs.getD i ' '))

/-- `UUID_RE.fullmatch(s)` viewed as a Boolean. -/
def isUuid (s : String) : Bool := isUuidChars s.toList

/-- `UUID_RE.search`: the leftmost 36-character substring of UUID shape. -/
def uuidSearchChars : List Char → Option String
  | [] => none
  | c :: rest =>
    if isUuidChars ((c :: rest).take 36) then some (((c :: rest).take 36).asString)
    else uuidSearchChars rest

def uuidSearch (s : String) : Option String := uuidSearchChars s.toList

/-- `mp3_extract_clip_id`: first a `WXXX` "ID" frame whose stripped url is a
full-string UUID; then a `TXXX` "ID" frame whose joined, stripped text
contains a UUID-shaped substring; then, read-only, the first `TCOM` frame
the same substring way. -/
def mp3ExtractClipId (s : ID3State) : Option String :=
  match s.wxxx.findSome? (fun fr =>
      if isIdDesc fr.desc then
        if isUuid (pyStrip fr.url) then some (pyStrip fr.url) else none
      else none) with
  | some v => some v
  | none =>
    match s.txxx.findSome? (fun fr =>
        if isIdDesc fr.desc then uuidSearch (pyStrip (String.intercalate " " fr.text))
        else none) with
    | some v => some v
    | none =>
      match s.tcom with
      | [] => none
      | t :: _ => uuidSearch (pyStrip (String.intercalate " " t))

/-- `flac_extract_clip_id`: keys "ID" then "COMPOSER", any stored value with
a UUID-shaped substring. -/
def flacExtractClipId (tags : List (String × List String)) : Option String :=
  let tryKey := fun (k : String) =>
    match tags.lookup k with
    | some vals => vals.findSome? (fun v => uuidSearch (pyStrip v))
    | none => none
  match tryKey "ID" with
  | some v => some v
  | none => tryKey "COMPOSER"

/-! ## File-state models for the FILL_MISSING retaggers and the FULL-mode
tagger (source lines 982-1001, 1211-1278).

A file is its tag state plus its access/modification timestamps; the
outcome of fallible library calls (`ID3(path)`, `save`) is supplied as an
oracle argument, and a raised Python exception is `Except.error ()`. -/

structure Mp3File where
  tags : ID3State
  atime : Nat
  mtime : Nat
deriving DecidableEq

/-- Outcome of `ID3(mp3_path)`: success, `ID3NoHeaderError` (handled by
starting from an empty tag), or any other exception (propagates). -/
inductive LoadResult
  | ok
  | noHeader
  | err
deriving DecidableEq

/-- `os.utime(path, (atime, mtime))` in the `finally` block. -/
def restoreTimes (a m : Nat) (f : Mp3File) : Mp3File :=
  { f with atime := a, mtime := m }

/-- The save step: when something changed, `id3.save` either succeeds
(writing the new tags and touching mtime) or raises after the attempted
write; when nothing changed, no write happens. -/
def retagMp3SaveStep (id3 : ID3State) (saveOk : Bool) (now : Nat)
    (f : Mp3File) (clipId : String) : Except Unit Bool × Mp3File :=
  let r := retagFillMissingFrames id3 clipId
  if r.1 then
    if saveOk then (.ok true, { tags := r.2, atime := f.atime, mtime := now })
    else (.error (), { f with mtime := now })
  else (.ok false, f)

/-- `retag_mp3_fill_missing_preserve_timestamps`: early `False` for an empty
id (before the timestamps are even read); otherwise capture
(atime, mtime), run the body, and restore them in the `finally` block on
every exit path, error included. -/
def retagMp3FillMissingPreserveTimestamps (load : LoadResult) (saveOk : Bool)
    (now : Nat) (f : Mp3File) (clipId : String) : Except Unit Bool × Mp3File :=
  if clipId = "" then (.ok false, f)
  else
    let a := f.atime
    let m := f.mtime
    let r :=
      match load with
      | .err => ((.error () : Except Unit Bool), f)
      | .ok => retagMp3SaveStep f.tags saveOk now f clipId
      | .noHeader => retagMp3SaveStep {} saveOk now f clipId
    (r.1, restoreTimes a m r.2)

/-- A FLAC file: its Vorbis comment block plus timestamps. -/
structure FlacFile where
  comments : List (String × List String)
  atime : Nat
  mtime : Nat
deriving DecidableEq

/-- `_vorbis_has_nonempty`: the key is present and some stored value strips
to non-empty. -/
def vorbisHasNonempty (tags : List (String × List String)) (key : String) : Bool :=
  match tags.lookup key with
  | none => false
  | some vals => vals.any (fun v => pyStrip v != "")

/-- `retag_flac_fill_missing_preserve_timestamps`, same discipline as the
MP3 variant; `loadOk` is the outcome of `FLAC(path)`. -/
def retagFlacFillMissingPreserveTimestamps (loadOk saveOk : Bool) (now : Nat)
    (f : FlacFile) (clipId : String) : Except Unit Bool × FlacFile :=
  if clipId = "" then (.ok false, f)
  else
    let a := f.atime
    let m := f.mtime
    let r : Except Unit Bool × FlacFile :=
      if !loadOk then (.error (), f)
      else if !(vorbisHasNonempty f.comments "ID") then
        if saveOk then
          (.ok true, FlacFile.mk (updateAssoc f.comments "ID" [clipId]) f.atime now)
        else (.error (), { f with mtime := now })
      else (.ok false, f)
    (r.1, { r.2 with atime := a, mtime := m })

/-- The body of `embed_tags_full_rewrite_mp3` up to `id3.save`: rebuild the
tag set from scratch and write it; a failing save raises. -/
def embedTagsFullRewriteMp3Inner (saveOk : Bool) (now : Nat) (f : Mp3File)
    (clip : ClipRec) (img : Option (String × List Nat)) : Except Unit Mp3File :=
  if saveOk then .ok (Mp3File.mk (populateId3Common clip img) f.atime now)
  else .error ()

/-- `embed_tags_full_rewrite_mp3`: the whole body sits in
`try: ... except Exception: print(..., file=sys.stderr)`, so every failure
is caught, logged (third component) and the function returns `None`
normally — the caller never sees an exception. -/
def embedTagsFullRewriteMp3 (saveOk : Bool) (now : Nat) (f : Mp3File)
    (clip : ClipRec) (img : Option (String × List Nat)) :
    Except Unit Unit × Mp3File × Bool :=
  match embedTagsFullRewriteMp3Inner saveOk now f clip img with
  | .ok f2 => (.ok (), f2, false)
  | .error _ => (.ok (), f, true)

/-! ## IdentityScanner (`scan_audio_dir_ids`, source lines 1355-1401). -/

/-- `int(m.group(2))` on an ASCII digit run. -/
def natOfDigits (l : List Char) : Nat :=
  l.foldl (fun acc c => acc * 10 + (c.toNat - 48)) 0

/-- Matching a stem against `re.compile(r"^(.*)\s+V(\d+)$", re.IGNORECASE)`:
the stem must end in a non-empty digit run, preceded by `V` or `v`,
preceded by a whitespace character; the greedy `.*` keeps every earlier
character (including further whitespace) in the raw group, so exactly one
whitespace character is consumed by `\s+`. -/
def parseVersionStem (stem : String) : Option (String × Nat) :=
  let rev := stem.toList.reverse
  let digits := rev.takeWhile Char.isDigit
  if digits.isEmpty then none
  else
    match rev.drop digits.length with
    | v :: w :: rs =>
      if (v = 'V' ∨ v = 'v') ∧ pySpace w then
        some ((rs.reverse).asString, natOfDigits digits.reverse)
      else none
    | _ => none

/-- The seed-building loop: `prev = version_seed.get(raw, 0);
if v > prev: version_seed[raw] = v`. -/
def versionSeedOfStems (stems : List String) : List (String × Nat) :=
  stems.foldl (fun seed stem =>
    match parseVersionStem stem with
    | none => seed
    | some rv => if lookupD seed rv.1 0 < rv.2 then updateAssoc seed rv.1 rv.2 else seed) []

/-- The stems the scan actually records: `stems.append(f.stem)` runs only
inside `if cid:`, i.e. only for files from which an identifier was
extracted.  MP3 files are scanned first, then FLAC files. -/
def scanStems (mp3s : List (String × ID3State))
    (flacs : List (String × List (String × List String))) : List String :=
  mp3s.filterMap (fun fe => if (mp3ExtractClipId fe.2).isSome then some fe.1 else none)
    ++ flacs.filterMap (fun fe => if (flacExtractClipId fe.2).isSome then some fe.1 else none)

/-- The VersionSeed produced by `scan_audio_dir_ids` for a directory whose
MP3s and FLACs are given as (stem, tag state) pairs. -/
def scanVersionSeed (mp3s : List (String × ID3State))
    (flacs : List (String × List (String × List String))) : List (String × Nat) :=
  versionSeedOfStems (scanStems mp3s flacs)

/-- The spec's description of the seed: per raw string, the maximum version
integer among the stems that match the pattern. -/
def maxVersionOf (stems : List String) (raw : String) : Nat :=
  stems.foldl (fun acc stem =>
    match parseVersionStem stem with
    | some rv => if rv.1 = raw then max acc rv.2 else acc
    | none => acc) 0

/-! ## Helper lemmas about frame lookup and addition -/

theorem find?_append_none {α : Type} (p : α → Bool) (l₁ l₂ : List α)
    (h : l₁.find? p = none) : (l₁ ++ l₂).find? p = l₂.find? p := by
  induction l₁ with
  | nil => rfl
  | cons x xs ih =>
    have hx : p x = false := by
      cases hp : p x
      · rfl
      · rw [List.find?_cons_of_pos _ hp] at h
        exact Option.noConfusion h
    have hxs : xs.find? p = none := by
      rwa [List.find?_cons_of_neg _ (by simp [hx])] at h
    rw [List.cons_append, List.find?_cons_of_neg _ (by simp [hx])]
    exact ih hxs

theorem isIdDesc_ID : isIdDesc "ID" = true := by decide

/-- When no "ID"-description `WXXX` frame is present, `add` appends one and
the finder then returns exactly it. -/
theorem getIdWxxx_after_add (s : ID3State) (clipId : String)
    (h : getIdWxxx s = none) :
    (addWxxx s.wxxx (WxxxFrame.mk "ID" clipId)).find? (fun fr => isIdDesc fr.desc)
      = some (WxxxFrame.mk "ID" clipId) := by
  have hall : ∀ fr ∈ s.wxxx, ¬ isIdDesc fr.desc := by
    rw [getIdWxxx, List.find?_eq_none] at h
    exact h
  have hany : s.wxxx.any (fun f => f.desc == "ID") = false := by
    rw [Bool.eq_false_iff]
    intro hc
    rw [List.any_eq_true] at hc
    obtain ⟨fr, hmem, heq⟩ := hc
    have : fr.desc = "ID" := by simpa [beq_iff_eq] using heq
    exact hall fr hmem (by rw [this]; exact (by decide))
  rw [addWxxx, if_neg (by simp [hany])]
  rw [find?_append_none _ _ _ h]
  rw [List.find?_cons_of_pos _ (by exact isIdDesc_ID)]

/-- Same for `TXXX`. -/
theorem getIdTxxx_after_add (s : ID3State) (clipId : String)
    (h : getIdTxxx s = none) :
    (addTxxx s.txxx (TxxxFrame.mk "ID" [clipId])).find? (fun fr => isIdDesc fr.desc)
      = some (TxxxFrame.mk "ID" [clipId]) := by
  have hall : ∀ fr ∈ s.txxx, ¬ isIdDesc fr.desc := by
    rw [getIdTxxx, List.find?_eq_none] at h
    exact h
  have hany : s.txxx.any (fun f => f.desc == "ID") = false := by
    rw [Bool.eq_false_iff]
    intro hc
    rw [List.any_eq_true] at hc
    obtain ⟨fr, hmem, heq⟩ := hc
    have : fr.desc = "ID" := by simpa [beq_iff_eq] using heq
    exact hall fr hmem (by rw [this]; exact (by decide))
  rw [addTxxx, if_neg (by simp [hany])]
  rw [find?_append_none _ _ _ h]
  rw [List.find?_cons_of_pos _ (by exact isIdDesc_ID)]

/-- Claim C5 (amended): FILL_MISSING on an MP3 adds both identifier frames
whenever neither "ID" slot already holds a frame, never adds one without
the other when both are missing, returns `changed = true` exactly when at
least one frame was added, and returns `changed = false` exactly when both
slots already held a frame — frame presence, regardless of whether the
stored value is a valid UUID. -/
theorem c5_fill_missing (s : ID3State) (clipId : String) :
    ((getIdWxxx s = none ∧ getIdTxxx s = none) →
      (retagFillMissingFrames s clipId).1 = true
      ∧ getIdWxxx (retagFillMissingFrames s clipId).2 = some (WxxxFrame.mk "ID" clipId)
      ∧ getIdTxxx (retagFillMissingFrames s clipId).2 = some (TxxxFrame.mk "ID" [clipId]))
    ∧ ((retagFillMissingFrames s clipId).1 = true
        ↔ (getIdWxxx s = none ∨ getIdTxxx s = none))
    ∧ ((retagFillMissingFrames s clipId).1 = false
        ↔ (getIdWxxx s).isSome ∧ (getIdTxxx s).isSome) := by
  refine ⟨?_, ?_, ?_⟩
  · rintro ⟨hw, ht⟩
    refine ⟨by simp [retagFillMissingFrames, hw, ht], ?_, ?_⟩
    · have ht' : getIdTxxx { s with wxxx := addWxxx s.wxxx (WxxxFrame.mk "ID" clipId) } = none := ht
      simp only [retagFillMissingFrames, hw, ht, Option.isNone_none, if_pos, if_true]
      exact getIdWxxx_after_add s clipId hw
    · simp only [retagFillMissingFrames, hw, ht, Option.isNone_none, if_pos, if_true]
      exact getIdTxxx_after_add { s with wxxx := addWxxx s.wxxx (WxxxFrame.mk "ID" clipId) }
        clipId ht
  · cases hw : getIdWxxx s <;> cases ht : getIdTxxx s <;>
      simp [retagFillMissingFrames, hw, ht]
  · cases hw : getIdWxxx s <;> cases ht : getIdTxxx s <;>
      simp [retagFillMissingFrames, hw, ht]

/-- Claim C5 witness: on a tag state with no frames at all, FILL_MISSING
adds both "ID" frames and reports a change. -/
theorem c5_fill_missing_witness :
    (getIdWxxx {} = none ∧ getIdTxxx {} = none)
    ∧ ((retagFillMissingFrames ({} : ID3State) "u-1").1 = true
      ∧ getIdWxxx (retagFillMissingFrames ({} : ID3State) "u-1").2
        = some (WxxxFrame.mk "ID" "u-1")
      ∧ getIdTxxx (retagFillMissingFrames ({} : ID3State) "u-1").2
        = some (TxxxFrame.mk "ID" ["u-1"])) :=
  ⟨⟨rfl, rfl⟩, (c5_fill_missing {} "u-1").1 ⟨rfl, rfl⟩⟩

/-- Claim C5 counterexample: both "ID" slots hold frames whose values are
not valid UUIDs ("x"); the operation still reports `changed = false`,
refuting the claim that `changed = false` occurs only when both slots were
present *with valid values*. -/
theorem c5_counterexample :
    (retagFillMissingFrames
        { wxxx := [WxxxFrame.mk "ID" "x"], txxx := [TxxxFrame.mk "ID" ["x"]] }
        "12345678-1234-1234-1234-123456789abc").1 = false
    ∧ isUuid "x" = false
    ∧ (retagFillMissingFrames
        { wxxx := [WxxxFrame.mk "ID" "x"], txxx := [TxxxFrame.mk "ID" ["x"]] }
        "12345678-1234-1234-1234-123456789abc").2
      = { wxxx := [WxxxFrame.mk "ID" "x"], txxx := [TxxxFrame.mk "ID" ["x"]] } := by
  refine ⟨by decide, by decide, by decide⟩

/-- The tag state carries a "ID" `WXXX` frame whose stripped value is a
valid full-string UUID. -/
def hasValidIdWxxx (s : ID3State) : Bool :=
  s.wxxx.any (fun fr => isIdDesc fr.desc && isUuid (pyStrip fr.url))

/-- The tag state carries a "ID" `TXXX` frame whose joined, stripped text is
a valid UUID. -/
def hasValidIdTxxx (s : ID3State) : Bool :=
  s.txxx.any (fun fr => isIdDesc fr.desc && isUuid (pyStrip (String.intercalate " " fr.text)))

theorem getIdWxxx_isSome_of_valid (s : ID3State) (h : hasValidIdWxxx s = true) :
    (getIdWxxx s).isSome = true := by
  rw [hasValidIdWxxx, List.any_eq_true] at h
  obtain ⟨fr, hmem, hp⟩ := h
  rw [Bool.and_eq_true] at hp
  rw [getIdWxxx, List.find?_isSome]
  exact ⟨fr, hmem, hp.1⟩

theorem getIdTxxx_isSome_of_valid (s : ID3State) (h : hasValidIdTxxx s = true) :
    (getIdTxxx s).isSome = true := by
  rw [hasValidIdTxxx, List.any_eq_true] at h
  obtain ⟨fr, hmem, hp⟩ := h
  rw [Bool.and_eq_true] at hp
  rw [getIdTxxx, List.find?_isSome]
  exact ⟨fr, hmem, hp.1⟩

/-- Claim C6: a FILL_MISSING invocation with a non-empty identifier captures
the file's timestamps before any mutation and restores them on every exit
path — successful write, no-op, and raised error alike — for the MP3 and
the FLAC retagger; and when the file already carries both valid identifier
frames it returns `changed = false`, writes nothing, and leaves the whole
file state (frames and timestamps) unchanged. -/
theorem c6_fill_missing_timestamps (load : LoadResult) (saveOk : Bool) (now : Nat)
    (f : Mp3File) (clipId : String) (h : clipId ≠ "") :
    ((retagMp3FillMissingPreserveTimestamps load saveOk now f clipId).2.atime = f.atime
      ∧ (retagMp3FillMissingPreserveTimestamps load saveOk now f clipId).2.mtime = f.mtime)
    ∧ (∀ (lf : FlacFile) (loadOk saveOk2 : Bool),
        (retagFlacFillMissingPreserveTimestamps loadOk saveOk2 now lf clipId).2.atime
          = lf.atime
        ∧ (retagFlacFillMissingPreserveTimestamps loadOk saveOk2 now lf clipId).2.mtime
          = lf.mtime)
    ∧ (load = .ok → hasValidIdWxxx f.tags = true → hasValidIdTxxx f.tags = true →
        retagMp3FillMissingPreserveTimestamps load saveOk now f clipId = (.ok false, f)) := by
  refine ⟨⟨?_, ?_⟩, ?_, ?_⟩
  · simp [retagMp3FillMissingPreserveTimestamps, h, restoreTimes]
  · simp [retagMp3FillMissingPreserveTimestamps, h, restoreTimes]
  · intro lf loadOk saveOk2
    constructor <;> simp [retagFlacFillMissingPreserveTimestamps, h]
  · intro hload hw ht
    subst hload
    obtain ⟨w, hwv⟩ := Option.isSome_iff_exists.mp (getIdWxxx_isSome_of_valid _ hw)
    obtain ⟨t, htv⟩ := Option.isSome_iff_exists.mp (getIdTxxx_isSome_of_valid _ ht)
    have hchanged : retagFillMissingFrames f.tags clipId = (false, f.tags) := by
      simp [retagFillMissingFrames, hwv, htv]
    simp [retagMp3FillMissingPreserveTimestamps, h, retagMp3SaveStep, hchanged, restoreTimes]

/-- Claim C6 witness: a file already carrying both valid identifier frames
is returned untouched with `changed = false`, timestamps included. -/
theorem c6_fill_missing_timestamps_witness :
    ("u-1" : String) ≠ ""
    ∧ hasValidIdWxxx
        { wxxx := [WxxxFrame.mk "ID" "12345678-1234-1234-1234-123456789abc"],
          txxx := [TxxxFrame.mk "ID" ["12345678-1234-1234-1234-123456789abc"]] } = true
    ∧ hasValidIdTxxx
        { wxxx := [WxxxFrame.mk "ID" "12345678-1234-1234-1234-123456789abc"],
          txxx := [TxxxFrame.mk "ID" ["12345678-1234-1234-1234-123456789abc"]] } = true
    ∧ retagMp3FillMissingPreserveTimestamps .ok true 99
        (Mp3File.mk
          { wxxx := [WxxxFrame.mk "ID" "12345678-1234-1234-1234-123456789abc"],
            txxx := [TxxxFrame.mk "ID" ["12345678-1234-1234-1234-123456789abc"]] } 10 20)
        "u-1"
      = (.ok false,
        Mp3File.mk
          { wxxx := [WxxxFrame.mk "ID" "12345678-1234-1234-1234-123456789abc"],
            txxx := [TxxxFrame.mk "ID" ["12345678-1234-1234-1234-123456789abc"]] } 10 20) :=
  ⟨by decide, by decide, by decide,
    (c6_fill_missing_timestamps .ok true 99
      (Mp3File.mk
        { wxxx := [WxxxFrame.mk "ID" "12345678-1234-1234-1234-123456789abc"],
          txxx := [TxxxFrame.mk "ID" ["12345678-1234-1234-1234-123456789abc"]] } 10 20)
      "u-1" (by decide)).2.2 rfl (by decide) (by decide)⟩

/-- Claim C9 (amended): FULL-mode MP3 tagging catches every tag-write
failure internally — the caller always gets a normal return, with the
failure only written to the error log and the file left as the failed write
left it — while FILL_MISSING-mode retagging propagates a failing write to
its caller as an exception, still restoring the timestamps on that path. -/
theorem c9_error_reporting (saveOk : Bool) (now : Nat) (f : Mp3File)
    (clip : ClipRec) (img : Option (String × List Nat)) :
    (embedTagsFullRewriteMp3 saveOk now f clip img).1 = .ok ()
    ∧ ((embedTagsFullRewriteMp3 false now f clip img).2.1 = f
      ∧ (embedTagsFullRewriteMp3 false now f clip img).2.2 = true)
    ∧ (∀ (f2 : Mp3File) (clipId : String), clipId ≠ "" →
        (retagFillMissingFrames f2.tags clipId).1 = true →
        (retagMp3FillMissingPreserveTimestamps .ok false now f2 clipId).1 = .error ()
        ∧ (retagMp3FillMissingPreserveTimestamps .ok false now f2 clipId).2.atime = f2.atime
        ∧ (retagMp3FillMissingPreserveTimestamps .ok false now f2 clipId).2.mtime
          = f2.mtime) := by
  refine ⟨?_, ⟨?_, ?_⟩, ?_⟩
  · cases saveOk <;> simp [embedTagsFullRewriteMp3, embedTagsFullRewriteMp3Inner]
  · simp [embedTagsFullRewriteMp3, embedTagsFullRewriteMp3Inner]
  · simp [embedTagsFullRewriteMp3, embedTagsFullRewriteMp3Inner]
  · intro f2 clipId hne hch
    refine ⟨?_, ?_, ?_⟩ <;>
      simp [retagMp3FillMissingPreserveTimestamps, hne, retagMp3SaveStep, hch, restoreTimes]

/-- Claim C9 counterexample: a failing tag write in FULL mode is not
surfaced to the caller — the function returns normally (`.ok ()`), the
failure going only to the error log — refuting the claim that FULL-mode
tagging surfaces the failure to its caller. -/
theorem c9_counterexample :
    (embedTagsFullRewriteMp3 false 7 (Mp3File.mk {} 1 2) {} none).1 = Except.ok ()
    ∧ (embedTagsFullRewriteMp3 false 7 (Mp3File.mk {} 1 2) {} none).2.2 = true :=
  ⟨rfl, rfl⟩

/-- Claim C9 witness: a failing FILL_MISSING write (file missing both "ID"
frames) propagates the error to the caller with the timestamps restored. -/
theorem c9_error_reporting_witness :
    ("u-1" : String) ≠ ""
    ∧ (retagFillMissingFrames ({} : ID3State) "u-1").1 = true
    ∧ ((retagMp3FillMissingPreserveTimestamps .ok false 7 (Mp3File.mk {} 1 2) "u-1").1
        = .error ()
      ∧ (retagMp3FillMissingPreserveTimestamps .ok false 7 (Mp3File.mk {} 1 2) "u-1").2.atime
        = 1
      ∧ (retagMp3FillMissingPreserveTimestamps .ok false 7 (Mp3File.mk {} 1 2) "u-1").2.mtime
        = 2) :=
  ⟨by decide, by decide,
    (c9_error_reporting false 7 (Mp3File.mk {} 1 2) {} none).2.2
      (Mp3File.mk {} 1 2) "u-1" (by decide) (by decide)⟩

/-! ## C7: the version seed -/

/-- The seed-building fold tracked through `lookupD`: the stored counter for
`raw` is the running maximum of the matching versions. -/
theorem versionSeed_lookup_fold (stems : List String) (raw : String) :
    ∀ seed : List (String × Nat),
      lookupD (stems.foldl (fun seed stem =>
          match parseVersionStem stem with
          | none => seed
          | some rv => if lookupD seed rv.1 0 < rv.2 then updateAssoc seed rv.1 rv.2
              else seed) seed) raw 0
        = stems.foldl (fun acc stem =>
            match parseVersionStem stem with
            | some rv => if rv.1 = raw then max acc rv.2 else acc
            | none => acc) (lookupD seed raw 0) := by
  induction stems with
  | nil => intro seed; rfl
  | cons s stems ih =>
    intro seed
    simp only [List.foldl_cons]
    rw [ih]
    congr 1
    cases hp : parseVersionStem s with
    | none => rfl
    | some rv =>
      obtain ⟨r, v⟩ := rv
      dsimp only
      by_cases hr : r = raw
      · subst hr
        have hmax : (if r = r then max (lookupD seed r 0) v else lookupD seed r 0)
            = max (lookupD seed r 0) v := if_pos rfl
        by_cases hlt : lookupD seed r 0 < v
        · rw [if_pos hlt, hmax, lookupD, lookup_updateAssoc_self]
          simp
          omega
        · rw [if_neg hlt, hmax]
          omega
      · have hraw : raw ≠ r := fun he => hr he.symm
        by_cases hlt : lookupD seed r 0 < v
        · simp only [if_pos hlt, if_neg hr]
          rw [lookupD, lookup_updateAssoc_ne _ _ _ _ hraw]
          rfl
        · simp only [if_neg hlt, if_neg hr]

/-- Claim C7 (amended): the scan derives the VersionSeed by matching stems
against `"<raw> V<integer>"` and keeping, per raw string, the maximum
integer seen — but only across the scanned files from which an identifier
was successfully extracted; files without a recoverable identifier
contribute nothing to the seed. -/
theorem c7_version_seed (mp3s : List (String × ID3State))
    (flacs : List (String × List (String × List String))) (raw : String) :
    lookupD (scanVersionSeed mp3s flacs) raw 0
      = maxVersionOf (scanStems mp3s flacs) raw := by
  unfold scanVersionSeed versionSeedOfStems maxVersionOf
  rw [versionSeed_lookup_fold]
  rfl

/-- Claim C7 counterexample: a directory containing one MP3 named
`"Sunrise V5"` that carries no identifier yields an empty seed — the stored
counter for `"Sunrise"` is 0, not the maximum 5 present among all scanned
files' stems — refuting the claim that the seed keeps the per-raw maximum
across all scanned files in the directory. -/
theorem c7_counterexample :
    lookupD (scanVersionSeed [("Sunrise V5", ({} : ID3State))] []) "Sunrise" 0 = 0
    ∧ maxVersionOf ([("Sunrise V5", ({} : ID3State))].map Prod.fst) "Sunrise" = 5
    ∧ mp3ExtractClipId {} = none := by
  refine ⟨by decide, by decide, rfl⟩

/-! ## C8: UUID round trip through the WXXX frame -/

theorem dropWhile_eq_self_of_all {p : Char → Bool} {l : List Char}
    (h : ∀ c ∈ l, p c = false) : l.dropWhile p = l := by
  cases l with
  | nil => rfl
  | cons c cs => simp [List.dropWhile_cons, h c (by simp)]

theorem pyStrip_eq_self {s : String} (h : ∀ c ∈ s.toList, pySpace c = false) :
    pyStrip s = s := by
  unfold pyStrip
  rw [dropWhile_eq_self_of_all h]
  rw [dropWhile_eq_self_of_all (fun c hc => h c (by simpa using hc))]
  rw [List.reverse_reverse]
  rfl

theorem pySpace_of_hex (c : Char) (h : isHexDigit c = true) : pySpace c = false := by
  rw [Bool.eq_false_iff]
  intro hs
  have hs' : c = ' ' ∨ c = '\t' ∨ c = '\n' ∨ c = '\r' ∨ c = '\x0b' ∨ c = '\x0c' :=
    of_decide_eq_true hs
  rcases hs' with h1 | h1 | h1 | h1 | h1 | h1 <;> subst h1 <;>
    exact absurd h (by decide)

theorem uuid_no_space (u : String) (h : isUuid u = true) :
    ∀ c ∈ u.toList, pySpace c = false := by
  intro c hc
  rw [isUuid, isUuidChars, Bool.and_eq_true] at h
  obtain ⟨hlen, hall⟩ := h
  have hlen' : u.toList.length = 36 := by simpa using hlen
  obtain ⟨i, hi, hci⟩ := List.mem_iff_getElem.mp hc
  have hi36 : i < 36 := by omega
  have hmem : i ∈ List.range 36 := List.mem_range.mpr hi36
  have hp := (List.all_eq_true.mp hall) i hmem
  have hgetD : u.toList.getD i ' ' = c := by
    rw [List.getD_eq_getElem?_getD]
    rw [List.getElem?_eq_getElem hi]
    simpa using hci
  by_cases hdash : i = 8 ∨ i = 13 ∨ i = 18 ∨ i = 23
  · rw [if_pos hdash] at hp
    have : c = '-' := by
      have := of_decide_eq_true hp
      rw [hgetD] at this
      exact this
    subst this
    decide
  · rw [if_neg hdash] at hp
    rw [hgetD] at hp
    exact pySpace_of_hex c hp

theorem pyStrip_uuid (u : String) (h : isUuid u = true) : pyStrip u = u :=
  pyStrip_eq_self (uuid_no_space u h)

theorem uuid_ne_empty (u : String) (h : isUuid u = true) : u ≠ "" := by
  intro he
  subst he
  exact absurd h (by decide)

/-- The frame slots of `_populate_id3_common`'s result that identifier
extraction consults, for a clip with a non-empty stripped id: exactly one
`WXXX` "ID" frame, exactly one `TXXX` "ID" frame, no `TCOM` frame. -/
theorem populate_id_frames (clip : ClipRec) (img : Option (String × List Nat))
    (h : pyStrip clip.id ≠ "") :
    (populateId3Common clip img).wxxx = [WxxxFrame.mk "ID" (pyStrip clip.id)]
    ∧ (populateId3Common clip img).txxx = [TxxxFrame.mk "ID" [pyStrip clip.id]]
    ∧ (populateId3Common clip img).tcom = [] := by
  rcases img with _ | ⟨p, data⟩ <;>
    refine ⟨?_, ?_, ?_⟩ <;>
    simp [populateId3Common, h, apply_ite ID3State.wxxx, apply_ite ID3State.txxx,
      apply_ite ID3State.tcom, apply_ite ID3State.apic, addWxxx, addTxxx, addApic]

theorem intercalate_single (t : String) : String.intercalate " " [t] = t := by
  simp [String.intercalate, String.intercalate.go]

/-- Claim C8: for every clip whose identifier is a valid UUID, FULL-mode
tagging writes that identifier into the URL-typed `WXXX` "ID" frame and the
scanner's MP3 extraction recovers exactly that string; moreover the `WXXX`
slot is accepted only on an exact full-string UUID match of its stripped
value, while the `TXXX` slot is accepted on a UUID-shaped substring search
of its joined stripped text. -/
theorem c8_uuid_roundtrip (u : String) (h : isUuid u = true) :
    (∀ (clip : ClipRec) (img : Option (String × List Nat)),
      mp3ExtractClipId (populateId3Common { clip with id := u } img) = some u)
    ∧ (∀ url : String,
        mp3ExtractClipId { wxxx := [WxxxFrame.mk "ID" url] }
          = if isUuid (pyStrip url) then some (pyStrip url) else none)
    ∧ (∀ txt : String,
        mp3ExtractClipId { txxx := [TxxxFrame.mk "ID" [txt]] }
          = uuidSearch (pyStrip txt)) := by
  refine ⟨?_, ?_, ?_⟩
  · intro clip img
    have hid : ({ clip with id := u } : ClipRec).id = u := rfl
    have hstrip : pyStrip ({ clip with id := u } : ClipRec).id = u := by
      rw [hid]
      exact pyStrip_uuid u h
    obtain ⟨hw, ht, htc⟩ := populate_id_frames { clip with id := u } img
      (by rw [hstrip]; exact uuid_ne_empty u h)
    rw [hstrip] at hw
    rw [mp3ExtractClipId, hw]
    simp [List.findSome?, isIdDesc_ID, pyStrip_uuid u h, h]
  · intro url
    cases hu : isUuid (pyStrip url) <;>
      simp [mp3ExtractClipId, List.findSome?, isIdDesc_ID, hu]
  · intro txt
    have hj : String.intercalate " " [txt] = txt := intercalate_single txt
    cases hs : uuidSearch (pyStrip txt) <;>
      simp [mp3ExtractClipId, List.findSome?, isIdDesc_ID, hj, hs]

/-- Claim C8 witness: the concrete UUID round trip, plus the two acceptance
modes on concrete frames: the `WXXX` slot rejects a value that merely
contains a UUID, while the `TXXX` slot accepts it by substring search. -/
theorem c8_uuid_roundtrip_witness :
    isUuid "12345678-1234-1234-1234-123456789abc" = true
    ∧ mp3ExtractClipId (populateId3Common
        { ({} : ClipRec) with id := "12345678-1234-1234-1234-123456789abc" } none)
      = some "12345678-1234-1234-1234-123456789abc"
    ∧ mp3ExtractClipId
        { wxxx := [WxxxFrame.mk "ID" "see 12345678-1234-1234-1234-123456789abc"] } = none
    ∧ mp3ExtractClipId
        { txxx := [TxxxFrame.mk "ID" ["see 12345678-1234-1234-1234-123456789abc"]] }
      = some "12345678-1234-1234-1234-123456789abc" := by
  have hc := c8_uuid_roundtrip "12345678-1234-1234-1234-123456789abc" (by decide)
  refine ⟨by decide, hc.1 {} none, ?_, ?_⟩
  · rw [hc.2.1 "see 12345678-1234-1234-1234-123456789abc"]
    decide
  · rw [hc.2.2 "see 12345678-1234-1234-1234-123456789abc"]
    decide

/-! ## C10: cover MIME type -/

/-- The cover-discovery loop of `download_worker`: the first existing file
among `<artDir>/<fileBase><ext>` for ext in `.jpg, .jpeg, .png, .webp`
(path join modelled with `/`). -/
def findCover (existsFile : String → Bool) (artDir fileBase : String) : Option String :=
  [".jpg", ".jpeg", ".png", ".webp"].findSome? (fun ext =>
    if existsFile (artDir ++ "/" ++ fileBase ++ ext) then
      some (artDir ++ "/" ++ fileBase ++ ext)
    else none)

theorem populate_apic (clip : ClipRec) (p : String) (data : List Nat) (hp : p ≠ "") :
    (populateId3Common clip (some (p, data))).apic
      = [ApicFrame.mk (mimeForPath p) 3 "Cover" data] := by
  simp [populateId3Common, hp, apply_ite ID3State.apic, addApic]

/-- Claim C10: in FULL-mode tagging with a supplied, existing cover path,
the embedded picture's MIME type is `"image/jpeg"` exactly when the path's
extension, lowercased, is `.jpg` or `.jpeg`, and `"image/png"` for every
other extension; the choice depends only on the path, never on the image
bytes. -/
theorem c10_cover_mime (clip : ClipRec) (p : String) (hp : p ≠ "") :
    (∀ data : List Nat,
      (populateId3Common clip (some (p, data))).apic
        = [ApicFrame.mk (mimeForPath p) 3 "Cover" data])
    ∧ (mimeForPath p = "image/jpeg"
        ↔ (pyLower (splitextExt p) = ".jpg" ∨ pyLower (splitextExt p) = ".jpeg"))
    ∧ (mimeForPath p = "image/jpeg" ∨ mimeForPath p = "image/png") := by
  refine ⟨fun data => populate_apic clip p data hp, ?_, ?_⟩
  · by_cases hc : pyLower (splitextExt p) = ".jpg" ∨ pyLower (splitextExt p) = ".jpeg" <;>
      simp [mimeForPath, hc]
  · by_cases hc : pyLower (splitextExt p) = ".jpg" ∨ pyLower (splitextExt p) = ".jpeg" <;>
      simp [mimeForPath, hc]

/-- Claim C10 witness: a `.webp` cover discovered by the pipeline's own
search loop is embedded as `"image/png"` regardless of its bytes, and
uppercase `.JPG` lowers to jpeg. -/
theorem c10_cover_mime_witness :
    ("Art/Sunrise V1.webp" : String) ≠ ""
    ∧ findCover (fun q => q == "Art/Sunrise V1.webp") "Art" "Sunrise V1"
      = some "Art/Sunrise V1.webp"
    ∧ (populateId3Common {} (some ("Art/Sunrise V1.webp", [9, 9]))).apic
      = [ApicFrame.mk "image/png" 3 "Cover" [9, 9]]
    ∧ mimeForPath "cover.JPG" = "image/jpeg" := by
  refine ⟨by decide, by decide, ?_, by decide⟩
  rw [(c10_cover_mime {} "Art/Sunrise V1.webp" (by decide)).1 [9, 9]]
  decide

end Suno
